import Mathlib

/-!
Verification of the meshcore-chat message pipeline (`mesh/messages.py`).

Python strings are modelled as `List Char`; a text file is modelled as the
list of its newline-terminated lines (each without the trailing newline).
`datetime.datetime` values are modelled by the `DateTime` structure below;
Python compares them lexicographically on
(year, month, day, hour, minute, second). Character-class predicates
(`str.isdigit`, `str.isalnum`, `\s`, `int()` literals) are modelled for the
ASCII range, which covers every input exercised here; Python additionally
accepts some non-ASCII code points in those classes.

Fallible code is modelled with `Except Unit`: `.error ()` stands for an
uncaught Python exception propagating out of the modelled function.
-/

namespace MeshChat

/-- Python whitespace characters (the ASCII part of `str.strip` / regex `\s`). -/
def isPyWS (c : Char) : Bool :=
  c = ' ' || c = '\t' || c = '\n' || c = '\r' || c = '\x0b' || c = '\x0c'

/-- Python `str.strip()`: drop leading and trailing whitespace. -/
def pyStrip (s : List Char) : List Char :=
  ((s.dropWhile isPyWS).reverse.dropWhile isPyWS).reverse

/-- Python `str.split()` with no arguments: split on whitespace runs,
discarding empty pieces. -/
def pySplitWS (s : List Char) : List (List Char) :=
  let step := fun (acc : List (List Char) × List Char) c =>
    if isPyWS c then (if acc.2.isEmpty then acc.1 else acc.1 ++ [acc.2], [])
    else (acc.1, acc.2 ++ [c])
  let r := s.foldl step ([], [])
  if r.2.isEmpty then r.1 else r.1 ++ [r.2]

/-- Python `str.split(sep)` for a one-character separator: split at every
occurrence, keeping empty pieces. -/
def splitOnChar (sep : Char) (s : List Char) : List (List Char) :=
  let r := s.foldl
    (fun (acc : List (List Char) × List Char) c =>
      if c = sep then (acc.1 ++ [acc.2], []) else (acc.1, acc.2 ++ [c]))
    ([], [])
  r.1 ++ [r.2]

/-- Python `str.capitalize()` (ASCII): first character upper-cased, the rest
lower-cased. -/
def pyCapitalize : List Char → List Char
  | [] => []
  | c :: r => c.toUpper :: r.map Char.toLower

/-- Python `str.zfill(2)` for sign-free strings: left-pad with zeros to
width 2. -/
def zfill2 (s : List Char) : List Char :=
  if s.length ≥ 2 then s else
  if s.length = 1 then '0' :: s else ['0', '0']

/-- Decimal digit value of a character. -/
def dval (c : Char) : Nat := c.toNat - '0'.toNat

/-- Value of a string of decimal digits. -/
def natOfDigits (s : List Char) : Nat :=
  s.foldl (fun a c => 10 * a + dval c) 0

/-- Python `str.isdigit()` (ASCII): non-empty and all decimal digits. -/
def isDigitsStr (s : List Char) : Bool :=
  !s.isEmpty && s.all Char.isDigit

/-- Python `int(s)` on a whitespace-free literal: optional sign followed by
decimal digits (underscore separators are not modelled; none occur here). -/
def pyIntLiteral (s : List Char) : Option Int :=
  match s with
  | [] => none
  | c :: rest =>
    if c = '+' then (if isDigitsStr rest then some ((natOfDigits rest : Nat) : Int) else none)
    else if c = '-' then (if isDigitsStr rest then some (-((natOfDigits rest : Nat) : Int)) else none)
    else if isDigitsStr s then some ((natOfDigits s : Nat) : Int) else none

/-- Python `text.split(sep, 1)` specialised to the separator `": "`: split at
the first occurrence, or `none` when `": "` does not occur in the text. -/
def splitColonSpace : List Char → Option (List Char × List Char)
  | [] => none
  | ':' :: ' ' :: rest => some ([], rest)
  | c :: rest => (splitColonSpace rest).map (fun p => (c :: p.1, p.2))

/-- Characters accepted by the sender-name heuristic's character test
(`c.isalnum() or c in '@._-'`). -/
def isNameChar (c : Char) : Bool :=
  c.isAlphanum || c = '@' || c = '.' || c = '_' || c = '-'

/-- A `datetime.datetime` value. -/
structure DateTime where
  year : Nat
  month : Nat
  day : Nat
  hour : Nat
  minute : Nat
  second : Nat
deriving DecidableEq

/-- A `datetime.date` value (used for `date.today()`). -/
structure Date where
  year : Nat
  month : Nat
  day : Nat
deriving DecidableEq

/-- The comparison key of a datetime: Python orders `datetime` values
lexicographically on these six components. -/
def DateTime.fields (d : DateTime) : List Nat :=
  [d.year, d.month, d.day, d.hour, d.minute, d.second]

/-- Lexicographic order on `List Nat`, matching Python's ordering of equal
length component lists. -/
def lexLeB : List Nat → List Nat → Bool
  | [], _ => true
  | _ :: _, [] => false
  | a :: as, b :: bs => if a < b then true else if b < a then false else lexLeB as bs

/-- Gregorian leap-year test (as in `datetime`). -/
def isLeap (y : Nat) : Bool :=
  y % 4 = 0 && (y % 100 != 0 || y % 400 = 0)

/-- Days in a month (as validated by the `datetime` constructor). -/
def daysInMonth (y m : Nat) : Nat :=
  if m = 2 then (if isLeap y then 29 else 28)
  else if m = 4 ∨ m = 6 ∨ m = 9 ∨ m = 11 then 30 else 31

/-- The range validation performed by the `datetime.datetime` constructor;
`none` models the `ValueError` it raises. -/
def validateDT (d : DateTime) : Option DateTime :=
  if 1 ≤ d.year ∧ d.year ≤ 9999 ∧ 1 ≤ d.month ∧ d.month ≤ 12 ∧
     1 ≤ d.day ∧ d.day ≤ daysInMonth d.year d.month ∧
     d.hour ≤ 23 ∧ d.minute ≤ 59 ∧ d.second ≤ 59
  then some d else none

/-- Decimal rendering of a number, zero-padded to two digits (strftime
`%d`/`%y`/`%H`/`%M`/`%S` on in-range values). -/
def pad2 (n : Nat) : List Char :=
  if n < 10 then '0' :: Nat.toDigits 10 n else Nat.toDigits 10 n

/-- The C-locale month abbreviation used by strftime `%b`. -/
def monthAbbrCap : Nat → List Char
  | 1 => "Jan".data
  | 2 => "Feb".data
  | 3 => "Mar".data
  | 4 => "Apr".data
  | 5 => "May".data
  | 6 => "Jun".data
  | 7 => "Jul".data
  | 8 => "Aug".data
  | 9 => "Sep".data
  | 10 => "Oct".data
  | 11 => "Nov".data
  | 12 => "Dec".data
  | _ => []

/-- `datetime.now().strftime("%d-%b-%y %H:%M:%S")`, the timestamp format
used for every freshly produced transcript line. -/
def formatTimestamp (d : DateTime) : List Char :=
  pad2 d.day ++ '-' :: (monthAbbrCap d.month ++ '-' :: (pad2 (d.year % 100) ++
    ' ' :: (pad2 d.hour ++ ':' :: (pad2 d.minute ++ ':' :: pad2 d.second))))

/-!
A model of CPython `_strptime` for the six fixed formats tried by
`parse_message_timestamp`. Each strftime directive compiles to a regex
alternation; `StrP` enumerates, in the regex engine's depth-first priority
order, every way a directive sequence can match a prefix of the input. The
head of the final list is the match the regex engine returns; `strptime`
then additionally demands that this match consumed the whole string, and the
`datetime` constructor validates the component ranges (`validateDT`).
-/

/-- Nondeterministic string parser: all (value, remaining input) matches, in
regex priority order. -/
abbrev StrP (α : Type) := List Char → List (α × List Char)

instance : Monad StrP where
  pure a := fun s => [(a, s)]
  bind p f := fun s => (p s).flatMap (fun ar => f ar.1 ar.2)

/-- Ordered regex alternation. -/
def spAlt {α : Type} (ps : List (StrP α)) : StrP α :=
  fun s => ps.flatMap (fun p => p s)

/-- A literal character in the format string. -/
def spLitP (c : Char) : StrP Unit := fun s =>
  match s with
  | c' :: r => if c' = c then [((), r)] else []
  | [] => []

/-- Exactly two digits whose value lies in `[lo, hi]`. Each two-digit
alternative of a numeric strftime directive (for example `3[01]`, `[12]\d`,
`0[1-9]` for `%d`) is an instance of this. -/
def spRange2 (lo hi : Nat) : StrP Nat := fun s =>
  match s with
  | c1 :: c2 :: r =>
    if c1.isDigit && c2.isDigit then
      let v := 10 * dval c1 + dval c2
      if lo ≤ v ∧ v ≤ hi then [(v, r)] else []
    else []
  | _ => []

/-- Exactly one digit whose value lies in `[lo, hi]`. -/
def spRange1 (lo hi : Nat) : StrP Nat := fun s =>
  match s with
  | c :: r => if c.isDigit ∧ lo ≤ dval c ∧ dval c ≤ hi then [(dval c, r)] else []
  | [] => []

/-- Exactly four digits (`%Y`). -/
def spY4 : StrP Nat := fun s =>
  match s with
  | c1 :: c2 :: c3 :: c4 :: r =>
    if c1.isDigit && c2.isDigit && c3.isDigit && c4.isDigit then
      [(natOfDigits [c1, c2, c3, c4], r)]
    else []
  | _ => []

/-- Directive `%d` (day): regex `3[01]|[12]\d|0[1-9]|[1-9]`. -/
def spD : StrP Nat := spAlt [spRange2 30 31, spRange2 10 29, spRange2 1 9, spRange1 1 9]

/-- Directive `%m` (month): regex `1[0-2]|0[1-9]|[1-9]`. -/
def spM : StrP Nat := spAlt [spRange2 10 12, spRange2 1 9, spRange1 1 9]

/-- Directive `%H` (hour): regex `2[0-3]|[0-1]\d|\d`. -/
def spH : StrP Nat := spAlt [spRange2 20 23, spRange2 0 19, spRange1 0 9]

/-- Directive `%M` (minute): regex `[0-5]\d|\d`. -/
def spMin : StrP Nat := spAlt [spRange2 0 59, spRange1 0 9]

/-- Directive `%S` (second): regex `6[0-1]|[0-5]\d|\d` (leap seconds are
accepted by the regex and rejected later by the `datetime` constructor). -/
def spSec : StrP Nat := spAlt [spRange2 60 61, spRange2 0 59, spRange1 0 9]

/-- Directive `%y` (two-digit year): regex `\d\d`. -/
def spY2 : StrP Nat := spRange2 0 99

/-- `_strptime`'s century rule for `%y`: up to 68 is 2000s, 69-99 is
1900s. -/
def y2year (y : Nat) : Nat := if y ≤ 68 then 2000 + y else 1900 + y

/-- Consume a case-insensitive (ASCII) literal name, as the `IGNORECASE`
month-name alternations do. -/
def matchCI : List Char → List Char → Option (List Char)
  | [], s => some s
  | _ :: _, [] => none
  | p :: ps, c :: cs => if c.toLower = p then matchCI ps cs else none

/-- Directive `%b`: the C-locale month abbreviations, case-insensitive. -/
def spMonAbbr : StrP Nat := fun s =>
  (List.range 12).filterMap (fun i =>
    (matchCI ((monthAbbrCap (i + 1)).map Char.toLower) s).map (fun r => (i + 1, r)))

/-- The C-locale full month names, lower-cased, in `%B`'s alternation order
(sorted by length, longest first, as `_strptime` builds it). -/
def monthFullNames : List (List Char × Nat) :=
  [("september".data, 9), ("february".data, 2), ("november".data, 11),
   ("december".data, 12), ("january".data, 1), ("october".data, 10),
   ("august".data, 8), ("march".data, 3), ("april".data, 4),
   ("june".data, 6), ("july".data, 7), ("may".data, 5)]

/-- Directive `%B`: the C-locale full month names, case-insensitive. -/
def spMonFull : StrP Nat := fun s =>
  monthFullNames.filterMap (fun nv =>
    (matchCI nv.1 s).map (fun r => (nv.2, r)))

/-- A whitespace character in the format string compiles to `\s+`: one or
more whitespace characters, greedy (longest consumption first). -/
def spWS1 : StrP Unit := fun s =>
  let n := (s.takeWhile isPyWS).length
  (List.range n).map (fun k => ((), s.drop (n - k)))

/-- Format `"%d-%b-%y %H:%M:%S"` (e.g. `17-Jan-26 22:46:29`). -/
def fmt1 : StrP DateTime := do
  let d ← spD
  spLitP '-'
  let b ← spMonAbbr
  spLitP '-'
  let y ← spY2
  spWS1
  let h ← spH
  spLitP ':'
  let mi ← spMin
  spLitP ':'
  let s ← spSec
  pure ⟨y2year y, b, d, h, mi, s⟩

/-- Format `"%d-%B-%y %H:%M:%S"` (full month name). -/
def fmt2 : StrP DateTime := do
  let d ← spD
  spLitP '-'
  let b ← spMonFull
  spLitP '-'
  let y ← spY2
  spWS1
  let h ← spH
  spLitP ':'
  let mi ← spMin
  spLitP ':'
  let s ← spSec
  pure ⟨y2year y, b, d, h, mi, s⟩

/-- Format `"%m/%d/%y %H:%M:%S"`. -/
def fmt3 : StrP DateTime := do
  let m ← spM
  spLitP '/'
  let d ← spD
  spLitP '/'
  let y ← spY2
  spWS1
  let h ← spH
  spLitP ':'
  let mi ← spMin
  spLitP ':'
  let s ← spSec
  pure ⟨y2year y, m, d, h, mi, s⟩

/-- Format `"%d/%m/%y %H:%M:%S"`. -/
def fmt4 : StrP DateTime := do
  let d ← spD
  spLitP '/'
  let m ← spM
  spLitP '/'
  let y ← spY2
  spWS1
  let h ← spH
  spLitP ':'
  let mi ← spMin
  spLitP ':'
  let s ← spSec
  pure ⟨y2year y, m, d, h, mi, s⟩

/-- Format `"%Y-%m-%d %H:%M:%S"`. -/
def fmt5 : StrP DateTime := do
  let y ← spY4
  spLitP '-'
  let m ← spM
  spLitP '-'
  let d ← spD
  spWS1
  let h ← spH
  spLitP ':'
  let mi ← spMin
  spLitP ':'
  let s ← spSec
  pure ⟨y, m, d, h, mi, s⟩

/-- Format `"%m-%d-%Y %H:%M:%S"`. -/
def fmt6 : StrP DateTime := do
  let m ← spM
  spLitP '-'
  let d ← spD
  spLitP '-'
  let y ← spY4
  spWS1
  let h ← spH
  spLitP ':'
  let mi ← spMin
  spLitP ':'
  let s ← spSec
  pure ⟨y, m, d, h, mi, s⟩

/-- Run a compiled format: take the regex engine's first match (head of the
priority-ordered list) and require, as `_strptime` does, that it consumed
the whole string. -/
def runFmt (p : StrP DateTime) (s : List Char) : Option DateTime :=
  match p s with
  | [] => none
  | (dt, r) :: _ => if r.isEmpty then some dt else none

/-- `datetime.strptime(s, fmt)`: regex match plus constructor validation;
`none` models the `ValueError` that the caller catches. -/
def tryFormat (p : StrP DateTime) (s : List Char) : Option DateTime :=
  (runFmt p s).bind validateDT

/-- Lines 38-52 of `messages.py`: try the six fixed formats in order,
returning the first success. -/
def tryFixedFormats (s : List Char) : Option DateTime :=
  tryFormat fmt1 s <|> tryFormat fmt2 s <|> tryFormat fmt3 s <|>
  tryFormat fmt4 s <|> tryFormat fmt5 s <|> tryFormat fmt6 s

/-- The time-only regex `^(\d{1,2}):(\d{2})(?::(\d{2}))?$` of line 55,
returning the (hour, minute, second) component values on a match. -/
def timeOnlyMatch (ts : List Char) : Option (Nat × Nat × Nat) :=
  let ds := ts.takeWhile Char.isDigit
  let rest := ts.drop ds.length
  if ds.length = 0 ∨ ds.length > 2 then none
  else
    match rest with
    | ':' :: m1 :: m2 :: rest2 =>
      if m1.isDigit && m2.isDigit then
        let hv := natOfDigits ds
        let mv := natOfDigits [m1, m2]
        match rest2 with
        | [] => some (hv, mv, 0)
        | ':' :: s1 :: s2 :: tail =>
          if s1.isDigit && s2.isDigit && tail.isEmpty then
            some (hv, mv, natOfDigits [s1, s2])
          else none
        | _ => none
      else none
    | _ => none

/-- The literal month-abbreviation table of lines 80-83
(`month_map.get`). -/
def monthMap (s : List Char) : Option (List Char) :=
  if s = "Jan".data then some "01".data
  else if s = "Feb".data then some "02".data
  else if s = "Mar".data then some "03".data
  else if s = "Apr".data then some "04".data
  else if s = "May".data then some "05".data
  else if s = "Jun".data then some "06".data
  else if s = "Jul".data then some "07".data
  else if s = "Aug".data then some "08".data
  else if s = "Sep".data then some "09".data
  else if s = "Oct".data then some "10".data
  else if s = "Nov".data then some "11".data
  else if s = "Dec".data then some "12".data
  else none

/-- The manual legacy `DD-Mon-YY HH:MM:SS` parse of lines 69-98: split on
whitespace into date and time, split the date on `-`, map the month
abbreviation, prepend the century (`<50` gives `20YY`, otherwise `19YY`),
and re-parse with `"%Y-%m-%d %H:%M:%S"`. Any failure inside the `try` body
yields `none` (the `except` swallows it and the function returns `None`). -/
def manualLegacy (ts : List Char) : Option DateTime :=
  match pySplitWS ts with
  | [datePart, timePart] =>
    if '-' ∈ datePart then
      match splitOnChar '-' datePart with
      | [day, monAbbr, year] =>
        match monthMap (pyCapitalize monAbbr) with
        | some mnum =>
          match pyIntLiteral year with
          | some yv =>
            let year2 := if yv < 50 then '2' :: '0' :: year else '1' :: '9' :: year
            tryFormat fmt5 (year2 ++ '-' :: (mnum ++ '-' :: (zfill2 day ++ ' ' :: timePart)))
          | none => none
        | none => none
      | _ => none
    else none
  | _ => none

/-- The bracket-extraction regex `^\[([^\]]+)\]\s*(.*)` of line 33: the line
must start with `[`, then one or more non-`]` characters, then `]`; the
group is the bracket content. -/
def extractBracket (line : List Char) : Option (List Char) :=
  match line with
  | '[' :: rest =>
    let content := rest.takeWhile (fun c => c != ']')
    if content.isEmpty then none
    else if (rest.drop content.length).head? = some ']' then some content else none
  | _ => none

/-- `parse_message_timestamp` (lines 28-100). Stages, in order: bracket
extraction (no match returns `None`); the six fixed strptime formats; the
time-only regex, whose match builds `datetime.time(hour, minute, second)`
OUTSIDE any `try` block, so out-of-range components raise an uncaught
`ValueError` (modelled as `.error ()`); and finally, behind the
`'-' in ts and len(ts) >= 14` guard, the manual legacy parse. -/
def parse_message_timestamp (today : Date) (line : List Char) :
    Except Unit (Option DateTime) :=
  match extractBracket line with
  | none => .ok none
  | some ts =>
    match tryFixedFormats ts with
    | some dt => .ok (some dt)
    | none =>
      match timeOnlyMatch ts with
      | some (h, m, s) =>
        if h ≤ 23 ∧ m ≤ 59 ∧ s ≤ 59 then
          .ok (some ⟨today.year, today.month, today.day, h, m, s⟩)
        else .error ()
      | none =>
        if '-' ∈ ts ∧ 14 ≤ ts.length then .ok (manualLegacy ts) else .ok none

/-!
The history store (`save_to_history`, `load_history_from_file`,
`load_all_history`, lines 103-169 and 324-351).
-/

/-- The duplicate-check set built by `save_to_history` (lines 334-341): all
stripped, non-empty lines of the existing file, in order (Python keeps them
in a set; only membership is ever used). -/
def existingStripped (file : List (List Char)) : List (List Char) :=
  (file.map pyStrip).filter (fun l => !l.isEmpty)

/-- `save_to_history` (lines 324-351): the pair of the new file contents and
the function's return value. The message is appended iff it is not a member
of the stripped-existing-lines set; the Python function has no `return`
statement, so its value is always `None` (modelled `none`). -/
def save_to_history_full (file : List (List Char)) (message : List Char) :
    List (List Char) × Option Bool :=
  (if message ∈ existingStripped file then file else file ++ [message], none)

/-- The file contents after `save_to_history`. -/
def save_to_history (file : List (List Char)) (message : List Char) :
    List (List Char) :=
  (save_to_history_full file message).1

/-- `load_history_from_file` (lines 103-122): each raw line stripped, empty
lines dropped, order preserved. -/
def load_history_from_file (raw : List (List Char)) : List (List Char) :=
  (raw.map pyStrip).filter (fun l => !l.isEmpty)

/-- The message-collection loop of `load_all_history` (lines 134-143): pair
each message with its parsed timestamp, dropping messages whose parse
returns `None`; an exception raised by the parse propagates. -/
def parsedLines (today : Date) : List (List Char) →
    Except Unit (List (DateTime × List Char))
  | [] => .ok []
  | msg :: rest =>
    match parse_message_timestamp today msg with
    | .error e => .error e
    | .ok none => parsedLines today rest
    | .ok (some ts) => (parsedLines today rest).map (fun l => (ts, msg) :: l)

/-- Insert into a timestamp-sorted list, after all entries whose timestamp
is not greater (the placement a stable sort gives). -/
def insertTs (x : DateTime × List Char) :
    List (DateTime × List Char) → List (DateTime × List Char)
  | [] => [x]
  | y :: ys =>
    if lexLeB x.1.fields y.1.fields then x :: y :: ys else y :: insertTs x ys

/-- Stable insertion sort by timestamp, extensionally the
`all_messages.sort(key=lambda x: x[0])` of line 146 (Python `list.sort` is a
stable sort ascending by key). -/
def sortByTs : List (DateTime × List Char) → List (DateTime × List Char)
  | [] => []
  | x :: xs => insertTs x (sortByTs xs)

/-- `load_all_history` (lines 125-153) as the chronologically ordered
message sequence it emits: every file's stripped non-empty lines in
file-then-line order, filtered to those with a parseable timestamp, then
stably sorted by timestamp. `files` holds the raw line lists of the
`*.log` files in directory-listing order. -/
def load_all_history (today : Date) (files : List (List (List Char))) :
    Except Unit (List (DateTime × List Char)) :=
  (parsedLines today (files.flatMap load_history_from_file)).map sortByTs

/-!
Inbound event processing (`process_event_message`, lines 172-321) and
outbound sending (`send_message`, lines 406-529).
-/

/-- One entry of `mc.channels` as the claims use it. -/
structure ChannelInfo where
  channel_name : List Char
deriving DecidableEq

/-- The payload `data['type']` discriminator. -/
inductive PayloadType
  | CHAN
  | PRIV
deriving DecidableEq

/-- An inbound message payload (`ev.payload`). `name` and `pubkey` are
`none` when the corresponding key is absent from the dict. -/
structure EventData where
  ptype : PayloadType
  channel_idx : Nat
  text : List Char
  name : Option (List Char)
  pubkey : Option (List Char)
deriving DecidableEq

/-- The event argument of `process_event_message`: `None`, `NO_MORE_MSGS`,
`ERROR`, or a message event carrying a payload. -/
inductive MCEvent
  | noneEv
  | noMoreMsgs
  | errorEv
  | msgEv (data : EventData)
deriving DecidableEq

/-- Python-set insertion, modelled on lists: add if absent. -/
def setAdd (s : List (List Char)) (x : List Char) : List (List Char) :=
  if x ∈ s then s else s ++ [x]

/-- The truthiness test `'name' in data and data['name']`. -/
def truthyName : Option (List Char) → Option (List Char)
  | some n => if n.isEmpty then none else some n
  | none => none

/-- The sender-resolution chain shared verbatim by the CHAN branch (lines
218-232) and the PRIV branch (lines 280-294): explicit non-empty `name`
field, else contact lookup by key prefix (found: its `adv_name`, recorded as
a recent user; not found: the first 12 characters of the prefix), else
`"Unknown"`. Returns the sender and the names added to `recent_users`. -/
def resolveSender (lookup : List Char → Option (List Char))
    (name pubkey : Option (List Char)) : List Char × List (List Char) :=
  match truthyName name with
  | some n => (n, [n])
  | none =>
    match pubkey with
    | some p =>
      match lookup p with
      | none => (p.take 12, [])
      | some adv => (adv, [adv])
    | none => ("Unknown".data, [])

/-- The serialized transcript-line template
`"[<timestamp>] <channel>: [<sender>] <text>"` shared by every branch that
builds a line (lines 257, 300, 460-462). -/
def serializeLine (ts chan sender text : List Char) : List Char :=
  '[' :: (ts ++ ']' :: ' ' :: (chan ++ ':' :: ' ' :: '[' ::
    (sender ++ ']' :: ' ' :: text)))

/-- The observable outcome of one `process_event_message` call: its return
value, the plain formatted line (the UI shows an ANSI-coloured rendering of
the same line), the `save_to_history(scope, line)` call it makes, and the
updated `recent_channels` / `recent_users` sets. -/
structure ProcResult where
  returned : Bool
  message : Option (List Char)
  saved : Option (List Char × List Char)
  recentChannels : List (List Char)
  recentUsers : List (List Char)
deriving DecidableEq

/-- `process_event_message` (lines 172-321). `channels` is `mc.channels`
(`[]` when unset or empty, which skips the name lookup exactly as the
`hasattr`/truthiness guard does), `lookup` is
`mc.get_contact_by_key_prefix` projected to the contact's `adv_name`, `now`
is the wall clock at processing time, and `rc`/`ru` are the global
`recent_channels`/`recent_users` sets before the call. -/
def process_event_message (channels : List ChannelInfo)
    (lookup : List Char → Option (List Char)) (now : DateTime)
    (ev : MCEvent) (rc ru : List (List Char)) : ProcResult :=
  match ev with
  | .noneEv => ⟨false, none, none, rc, ru⟩
  | .noMoreMsgs => ⟨false, none, none, rc, ru⟩
  | .errorEv => ⟨false, none, none, rc, ru⟩
  | .msgEv data =>
    match data.ptype with
    | .CHAN =>
      let defaultName := 'c' :: 'h' :: Nat.toDigits 10 data.channel_idx
      let channel_name :=
        match channels[data.channel_idx]? with
        | some ch => if ch.channel_name.isEmpty then defaultName else ch.channel_name
        | none => defaultName
      let rc1 := setAdd rc channel_name
      let sp := resolveSender lookup data.name data.pubkey
      let ru1 := sp.2.foldl setAdd ru
      let ts := formatTimestamp now
      let str :=
        match splitColonSpace data.text with
        | some (cand, rest) =>
          if sp.1 = "Unknown".data then
            if cand.length ≤ 30 ∧ cand.any isNameChar then (cand, rest, setAdd ru1 cand)
            else (sp.1, data.text, ru1)
          else (sp.1, data.text, ru1)
        | none => (sp.1, data.text, ru1)
      let disp := if channel_name.head? = some '#' then channel_name else '#' :: channel_name
      let msg := serializeLine ts disp str.1 str.2.1
      ⟨true, some msg, some (channel_name, msg), rc1, str.2.2⟩
    | .PRIV =>
      let sp := resolveSender lookup data.name data.pubkey
      let ru1 := sp.2.foldl setAdd ru
      let ts := formatTimestamp now
      let msg := serializeLine ts ('#' :: "private".data) sp.1 data.text
      ⟨true, some msg, some ("private".data, msg), rc, ru1⟩

/-- The by-name channel match of the lookup loop (lines 414-424): exact
name, name with a `#` prepended, or (for a non-empty stored name that itself
starts with `#`) the stored name minus its `#`. -/
def chanMatches (channel_input : List Char) (ch : ChannelInfo) : Bool :=
  ch.channel_name == channel_input ||
  ('#' :: ch.channel_name) == channel_input ||
  (!ch.channel_name.isEmpty && ch.channel_name.head? == some '#' &&
    ch.channel_name.drop 1 == channel_input)

/-- The channel-resolution of `send_message` (lines 412-432): first match by
name against the loaded table, then the `ch<N>` form, then a bare digit
string; the numeric forms are taken at face value with no bounds check
against the table. -/
def resolveChannel (channels : List ChannelInfo) (channel_input : List Char) :
    Option Nat :=
  match channels.findIdx? (chanMatches channel_input) with
  | some i => some i
  | none =>
    if channel_input.take 2 == ['c', 'h'] && isDigitsStr (channel_input.drop 2) then
      some (natOfDigits (channel_input.drop 2))
    else if isDigitsStr channel_input then
      some (natOfDigits channel_input)
    else none

/-- The network outcome of one send attempt, an oracle input to the model:
the command response was an error; the command succeeded and the ACK wait
timed out; the ACK arrived; or `send_chan_msg` raised. -/
inductive NetOutcome
  | cmdError
  | ackTimeout
  | ackReceived
  | exn
deriving DecidableEq

/-- The observable outcome of one `send_message` call: its return value,
whether the channel-not-found error was reported, every
`save_to_history(scope, line)` call in program order, the final
`status_msg` value (`none` when the exception path skips it), the channel
index passed to `send_chan_msg` (`none` when no send was issued), and the
additions to `recent_channels`. -/
structure SendResult where
  returned : Bool
  errorShown : Bool
  historyWrites : List (List Char × List Char)
  statusMsg : Option (List Char)
  sentIdx : Option Nat
  recentChannelAdds : List (List Char)
deriving DecidableEq

/-- `send_message` (lines 406-529). If the target does not resolve, the
error is reported and the function returns `False` having touched nothing
else. Otherwise the transcript line is displayed and written to history
(line 475) before `send_chan_msg` is awaited (line 485); the status is then
`"✗ ERROR"` on an error response, `"⚠ TIMEOUT"` when no ACK arrives in
time, `"✓✓ DELIVERED"` on an ACK, and on an exception the same line is
saved a second time (line 527) and no status is assigned. -/
def send_message (channels : List ChannelInfo) (selfName : Option (List Char))
    (now : DateTime) (channel_input text : List Char) (outcome : NetOutcome) :
    SendResult :=
  match resolveChannel channels channel_input with
  | none => ⟨false, true, [], none, none, []⟩
  | some idx =>
    let ts := formatTimestamp now
    let own := selfName.getD "Me".data
    let disp := if channel_input.head? = some '#' then channel_input else '#' :: channel_input
    let line := serializeLine ts disp own text
    let actual := if disp.head? = some '#' then disp else '#' :: channel_input
    match outcome with
    | .cmdError => ⟨true, false, [(actual, line)], some "✗ ERROR".data, some idx, [channel_input]⟩
    | .ackTimeout => ⟨true, false, [(actual, line)], some "⚠ TIMEOUT".data, some idx, [channel_input]⟩
    | .ackReceived => ⟨true, false, [(actual, line)], some "✓✓ DELIVERED".data, some idx, [channel_input]⟩
    | .exn => ⟨true, false, [(actual, line), (actual, line)], none, some idx, [channel_input]⟩

/-- The ordering relation used to state chronological sortedness. -/
def tsLe (p q : DateTime × List Char) : Prop :=
  lexLeB p.1.fields q.1.fields = true

/-- Predicate selecting the entries carrying one fixed timestamp key (used
to state sort stability). -/
def tsKeyIs (key : List Nat) (p : DateTime × List Char) : Bool :=
  p.1.fields == key

/-- An empty contact directory (`get_contact_by_key_prefix` always
`None`). -/
def noContacts : List Char → Option (List Char) := fun _ => none

/-!
Supporting lemmas: the lexicographic order, the stable sort, set insertion,
the duplicate-check set, and the strptime parser.
-/

theorem lexLeB_refl (a : List Nat) : lexLeB a a = true := by
  induction a with
  | nil => rfl
  | cons x xs ih => simp [lexLeB, ih]

theorem lexLeB_total (a : List Nat) : ∀ b : List Nat, lexLeB a b = true ∨ lexLeB b a = true := by
  induction a with
  | nil => intro b; left; rfl
  | cons x xs ih =>
    intro b
    cases b with
    | nil => right; rfl
    | cons y ys =>
      rcases Nat.lt_trichotomy x y with h | h | h
      · left; simp [lexLeB, h]
      · subst h
        rcases ih ys with h2 | h2
        · left; simp [lexLeB, h2]
        · right; simp [lexLeB, h2]
      · right; simp [lexLeB, h]

theorem lexLeB_cons_iff (x y : Nat) (xs ys : List Nat) :
    lexLeB (x :: xs) (y :: ys) = true ↔ x < y ∨ (x = y ∧ lexLeB xs ys = true) := by
  simp only [lexLeB]
  split_ifs with h1 h2
  · simp [h1]
  · simp; omega
  · have hxy : x = y := by omega
    simp [hxy]

theorem lexLeB_trans (a : List Nat) :
    ∀ b c : List Nat, lexLeB a b = true → lexLeB b c = true → lexLeB a c = true := by
  induction a with
  | nil => intro b c _ _; rfl
  | cons x xs ih =>
    intro b c hab hbc
    cases b with
    | nil => simp [lexLeB] at hab
    | cons y ys =>
      cases c with
      | nil => simp [lexLeB] at hbc
      | cons z zs =>
        rw [lexLeB_cons_iff] at hab hbc ⊢
        rcases hab with h1 | ⟨h1, h1r⟩
        · rcases hbc with h2 | ⟨h2, _⟩
          · left; omega
          · left; omega
        · rcases hbc with h2 | ⟨h2, h2r⟩
          · left; omega
          · right; exact ⟨by omega, ih ys zs h1r h2r⟩

theorem insertTs_perm (x : DateTime × List Char) (l : List (DateTime × List Char)) :
    (insertTs x l).Perm (x :: l) := by
  induction l with
  | nil => exact List.Perm.refl _
  | cons y ys ih =>
    simp only [insertTs]
    split_ifs with h
    · exact List.Perm.refl _
    · exact (List.Perm.cons y ih).trans (List.Perm.swap x y ys)

theorem pairwise_insertTs (x : DateTime × List Char) (l : List (DateTime × List Char))
    (h : l.Pairwise tsLe) : (insertTs x l).Pairwise tsLe := by
  induction l with
  | nil => simp [insertTs]
  | cons y ys ih =>
    rcases List.pairwise_cons.mp h with ⟨hy, hys⟩
    simp only [insertTs]
    split_ifs with hle
    · refine List.pairwise_cons.mpr ⟨?_, h⟩
      intro z hz
      rcases List.mem_cons.mp hz with hz | hz
      · subst hz; exact hle
      · exact lexLeB_trans _ _ _ hle (hy z hz)
    · refine List.pairwise_cons.mpr ⟨?_, ih hys⟩
      intro z hz
      have hz2 : z ∈ x :: ys := (insertTs_perm x ys).mem_iff.mp hz
      rcases List.mem_cons.mp hz2 with hz2 | hz2
      · rw [hz2]
        rcases lexLeB_total x.1.fields y.1.fields with ht | ht
        · exact absurd ht hle
        · exact ht
      · exact hy z hz2

theorem sortByTs_perm (l : List (DateTime × List Char)) : (sortByTs l).Perm l := by
  induction l with
  | nil => exact List.Perm.refl _
  | cons x xs ih =>
    exact (insertTs_perm x (sortByTs xs)).trans (List.Perm.cons x ih)

theorem sortByTs_pairwise (l : List (DateTime × List Char)) :
    (sortByTs l).Pairwise tsLe := by
  induction l with
  | nil => simp [sortByTs]
  | cons x xs ih => exact pairwise_insertTs x (sortByTs xs) ih

theorem filter_insertTs (key : List Nat) (x : DateTime × List Char)
    (l : List (DateTime × List Char)) :
    (insertTs x l).filter (tsKeyIs key) = (x :: l).filter (tsKeyIs key) := by
  induction l with
  | nil => rfl
  | cons y ys ih =>
    simp only [insertTs]
    split_ifs with hle
    · rfl
    · have hxy : x.1.fields ≠ y.1.fields := by
        intro he
        exact hle (he ▸ lexLeB_refl x.1.fields)
    -- the skipped head y never carries x's key when x carries the key
      by_cases hx : tsKeyIs key x = true
      · have hkx : x.1.fields = key := by
          simpa [tsKeyIs] using hx
        have hy : tsKeyIs key y = false := by
          simp only [tsKeyIs, beq_eq_false_iff_ne, ne_eq]
          rw [← hkx]
          exact fun he => hxy he.symm
        simp [List.filter_cons, hx, hy, ih]
      · have hx2 : tsKeyIs key x = false := by
          simpa using hx
        simp [List.filter_cons, hx2, ih]

theorem filter_sortByTs (key : List Nat) (l : List (DateTime × List Char)) :
    (sortByTs l).filter (tsKeyIs key) = l.filter (tsKeyIs key) := by
  induction l with
  | nil => rfl
  | cons x xs ih =>
    rw [sortByTs, filter_insertTs, List.filter_cons, List.filter_cons, ih]

theorem mem_setAdd_self (s : List (List Char)) (x : List Char) : x ∈ setAdd s x := by
  by_cases h : x ∈ s <;> simp [setAdd, h]

theorem mem_setAdd_iff (s : List (List Char)) (x y : List Char) :
    y ∈ setAdd s x ↔ y ∈ s ∨ y = x := by
  by_cases h : x ∈ s
  · simp only [setAdd, if_pos h]
    constructor
    · exact Or.inl
    · rintro (hy | hy)
      · exact hy
      · exact hy ▸ h
  · simp [setAdd, h]

theorem mem_strp_bind {α β : Type} (p : StrP α) (f : α → StrP β) (s : List Char)
    (x : β × List Char) : x ∈ (p >>= f) s ↔ ∃ a r, (a, r) ∈ p s ∧ x ∈ f a r := by
  show x ∈ (p s).flatMap (fun ar => f ar.1 ar.2) ↔ _
  rw [List.mem_flatMap]
  constructor
  · rintro ⟨⟨a, r⟩, h1, h2⟩
    exact ⟨a, r, h1, h2⟩
  · rintro ⟨a, r, h1, h2⟩
    exact ⟨(a, r), h1, h2⟩

theorem mem_strp_pure {α : Type} (a : α) (s : List Char) (x : α × List Char) :
    x ∈ (pure a : StrP α) s ↔ x = (a, s) := by
  show x ∈ [(a, s)] ↔ _
  simp

/-- Every parse produced by `fmt5` carries, as its year, a value matched by
the leading `%Y` directive. -/
theorem fmt5_year (s : List Char) (dt : DateTime) (r : List Char)
    (h : (dt, r) ∈ fmt5 s) : ∃ r4, (dt.year, r4) ∈ spY4 s := by
  simp only [fmt5] at h
  rw [mem_strp_bind] at h
  obtain ⟨y, r1, hy, h⟩ := h
  rw [mem_strp_bind] at h
  obtain ⟨_, r2, _, h⟩ := h
  rw [mem_strp_bind] at h
  obtain ⟨m, r3, _, h⟩ := h
  rw [mem_strp_bind] at h
  obtain ⟨_, r4, _, h⟩ := h
  rw [mem_strp_bind] at h
  obtain ⟨d, r5, _, h⟩ := h
  rw [mem_strp_bind] at h
  obtain ⟨_, r6, _, h⟩ := h
  rw [mem_strp_bind] at h
  obtain ⟨hh, r7, _, h⟩ := h
  rw [mem_strp_bind] at h
  obtain ⟨_, r8, _, h⟩ := h
  rw [mem_strp_bind] at h
  obtain ⟨mi, r9, _, h⟩ := h
  rw [mem_strp_bind] at h
  obtain ⟨_, r10, _, h⟩ := h
  rw [mem_strp_bind] at h
  obtain ⟨ss, r11, _, h⟩ := h
  rw [mem_strp_pure] at h
  have hdt : dt = ⟨y, m, d, hh, mi, ss⟩ := congrArg Prod.fst h
  exact ⟨r1, by rw [hdt]; exact hy⟩

theorem validateDT_eq (d dt : DateTime) (h : validateDT d = some dt) : dt = d := by
  rw [validateDT] at h
  split_ifs at h
  exact (Option.some.inj h).symm

/-- A successful `strptime("%Y-%m-%d %H:%M:%S")` call returns the year
matched by `%Y`. -/
theorem tryFormat_fmt5_year (s : List Char) (dt : DateTime)
    (h : tryFormat fmt5 s = some dt) : ∃ r4, (dt.year, r4) ∈ spY4 s := by
  rw [tryFormat, runFmt] at h
  rcases hfs : fmt5 s with _ | ⟨⟨dt0, r0⟩, tail⟩
  · rw [hfs] at h
    simp at h
  · rw [hfs] at h
    have h2 : (if r0.isEmpty = true then some dt0 else none).bind validateDT = some dt := h
    by_cases hr : r0.isEmpty = true
    · rw [if_pos hr] at h2
      have hdt : dt = dt0 := validateDT_eq dt0 dt (by simpa using h2)
      subst hdt
      exact fmt5_year s dt r0 (hfs ▸ List.mem_cons_self _ _)
    · rw [if_neg hr] at h2
      simp at h2

theorem spY4_value (c1 c2 c3 c4 : Char) (rest : List Char) (y : Nat) (r4 : List Char)
    (h1 : c1.isDigit = true) (h2 : c2.isDigit = true) (h3 : c3.isDigit = true)
    (h4 : c4.isDigit = true) (h : (y, r4) ∈ spY4 (c1 :: c2 :: c3 :: c4 :: rest)) :
    y = natOfDigits [c1, c2, c3, c4] := by
  simp only [spY4, h1, h2, h3, h4, Bool.and_self, if_pos, List.mem_singleton,
    Prod.mk.injEq, and_true, true_and] at h
  exact h.1

theorem natOfDigits_cons2 (a b : Char) (d1 d2 : Char) :
    natOfDigits [a, b, d1, d2] =
      100 * (10 * dval a + dval b) + natOfDigits [d1, d2] := by
  simp only [natOfDigits, List.foldl]
  ring

theorem pyIntLiteral_twoDigits (d1 d2 : Char) (h1 : d1.isDigit = true)
    (h2 : d2.isDigit = true) :
    pyIntLiteral [d1, d2] = some ((natOfDigits [d1, d2] : Nat) : Int) := by
  have hp : d1 ≠ '+' := by
    intro he; rw [he] at h1; exact absurd h1 (by decide)
  have hm : d1 ≠ '-' := by
    intro he; rw [he] at h1; exact absurd h1 (by decide)
  simp [pyIntLiteral, hp, hm, isDigitsStr, h1, h2]

/-!
The claims.
-/

/-- C1: whenever `load_all_history` returns at all, it returns exactly the
parse-retained lines (`parsedLines` keeps a line iff its bracketed
timestamp parses, in file-then-line encounter order), as a permutation
sorted non-decreasingly by timestamp and stable (the entries carrying any
fixed timestamp key appear in their encounter order). However, the claim's
universal quantification over history files fails: a line whose bracket
content matches the time-only pattern with out-of-range components (for
example `[99:99] boom`) makes `datetime.time` raise an uncaught
`ValueError` outside every `try` block, so `load_all_history` crashes
instead of skipping the unparseable line — the first conjunct exhibits
this. -/
theorem c1_load_all_history_sorted_stable :
    load_all_history ⟨2026, 1, 17⟩ [["[99:99] boom".data]] = .error () ∧
    ∀ today files pre out,
      parsedLines today (files.flatMap load_history_from_file) = .ok pre →
      load_all_history today files = .ok out →
      out.Perm pre ∧ out.Pairwise tsLe ∧
      ∀ key : List Nat, out.filter (tsKeyIs key) = pre.filter (tsKeyIs key) := by
  constructor
  · rfl
  · intro today files pre out h1 h2
    rw [load_all_history, h1] at h2
    simp only [Except.map] at h2
    have hout : sortByTs pre = out := Except.ok.inj h2
    refine ⟨hout ▸ sortByTs_perm pre, hout ▸ sortByTs_pairwise pre, ?_⟩
    intro key
    exact hout ▸ filter_sortByTs key pre

/-- C1 witness: a two-file history with one unparseable line and a
timestamp tie across files; the load succeeds, is a sorted permutation of
the retained lines, and the tie (`10:00:00`) keeps file-then-line order. -/
theorem c1_witness :
    parsedLines ⟨2026, 1, 17⟩
      ([["[17-Jan-26 10:00:00] b".data, "garbage".data, "[17-Jan-26 09:00:00] a".data],
        ["[16-Jan-26 23:00:00] c".data, "[17-Jan-26 10:00:00] d".data]].flatMap
        load_history_from_file) =
      .ok [(⟨2026, 1, 17, 10, 0, 0⟩, "[17-Jan-26 10:00:00] b".data),
           (⟨2026, 1, 17, 9, 0, 0⟩, "[17-Jan-26 09:00:00] a".data),
           (⟨2026, 1, 16, 23, 0, 0⟩, "[16-Jan-26 23:00:00] c".data),
           (⟨2026, 1, 17, 10, 0, 0⟩, "[17-Jan-26 10:00:00] d".data)] ∧
    load_all_history ⟨2026, 1, 17⟩
      [["[17-Jan-26 10:00:00] b".data, "garbage".data, "[17-Jan-26 09:00:00] a".data],
       ["[16-Jan-26 23:00:00] c".data, "[17-Jan-26 10:00:00] d".data]] =
      .ok [(⟨2026, 1, 16, 23, 0, 0⟩, "[16-Jan-26 23:00:00] c".data),
           (⟨2026, 1, 17, 9, 0, 0⟩, "[17-Jan-26 09:00:00] a".data),
           (⟨2026, 1, 17, 10, 0, 0⟩, "[17-Jan-26 10:00:00] b".data),
           (⟨2026, 1, 17, 10, 0, 0⟩, "[17-Jan-26 10:00:00] d".data)] ∧
    List.Perm
      ([(⟨2026, 1, 16, 23, 0, 0⟩, "[16-Jan-26 23:00:00] c".data),
        (⟨2026, 1, 17, 9, 0, 0⟩, "[17-Jan-26 09:00:00] a".data),
        (⟨2026, 1, 17, 10, 0, 0⟩, "[17-Jan-26 10:00:00] b".data),
        (⟨2026, 1, 17, 10, 0, 0⟩, "[17-Jan-26 10:00:00] d".data)] :
        List (DateTime × List Char))
      [(⟨2026, 1, 17, 10, 0, 0⟩, "[17-Jan-26 10:00:00] b".data),
       (⟨2026, 1, 17, 9, 0, 0⟩, "[17-Jan-26 09:00:00] a".data),
       (⟨2026, 1, 16, 23, 0, 0⟩, "[16-Jan-26 23:00:00] c".data),
       (⟨2026, 1, 17, 10, 0, 0⟩, "[17-Jan-26 10:00:00] d".data)] ∧
    List.Pairwise tsLe
      ([(⟨2026, 1, 16, 23, 0, 0⟩, "[16-Jan-26 23:00:00] c".data),
        (⟨2026, 1, 17, 9, 0, 0⟩, "[17-Jan-26 09:00:00] a".data),
        (⟨2026, 1, 17, 10, 0, 0⟩, "[17-Jan-26 10:00:00] b".data),
        (⟨2026, 1, 17, 10, 0, 0⟩, "[17-Jan-26 10:00:00] d".data)] :
        List (DateTime × List Char)) ∧
    List.filter (tsKeyIs [2026, 1, 17, 10, 0, 0])
      ([(⟨2026, 1, 16, 23, 0, 0⟩, "[16-Jan-26 23:00:00] c".data),
        (⟨2026, 1, 17, 9, 0, 0⟩, "[17-Jan-26 09:00:00] a".data),
        (⟨2026, 1, 17, 10, 0, 0⟩, "[17-Jan-26 10:00:00] b".data),
        (⟨2026, 1, 17, 10, 0, 0⟩, "[17-Jan-26 10:00:00] d".data)] :
        List (DateTime × List Char)) =
    List.filter (tsKeyIs [2026, 1, 17, 10, 0, 0])
      ([(⟨2026, 1, 17, 10, 0, 0⟩, "[17-Jan-26 10:00:00] b".data),
        (⟨2026, 1, 17, 9, 0, 0⟩, "[17-Jan-26 09:00:00] a".data),
        (⟨2026, 1, 16, 23, 0, 0⟩, "[16-Jan-26 23:00:00] c".data),
        (⟨2026, 1, 17, 10, 0, 0⟩, "[17-Jan-26 10:00:00] d".data)] :
        List (DateTime × List Char)) := by
  have h := c1_load_all_history_sorted_stable.2 ⟨2026, 1, 17⟩
    [["[17-Jan-26 10:00:00] b".data, "garbage".data, "[17-Jan-26 09:00:00] a".data],
     ["[16-Jan-26 23:00:00] c".data, "[17-Jan-26 10:00:00] d".data]]
    ([(⟨2026, 1, 17, 10, 0, 0⟩, "[17-Jan-26 10:00:00] b".data),
      (⟨2026, 1, 17, 9, 0, 0⟩, "[17-Jan-26 09:00:00] a".data),
      (⟨2026, 1, 16, 23, 0, 0⟩, "[16-Jan-26 23:00:00] c".data),
      (⟨2026, 1, 17, 10, 0, 0⟩, "[17-Jan-26 10:00:00] d".data)] :
      List (DateTime × List Char))
    ([(⟨2026, 1, 16, 23, 0, 0⟩, "[16-Jan-26 23:00:00] c".data),
      (⟨2026, 1, 17, 9, 0, 0⟩, "[17-Jan-26 09:00:00] a".data),
      (⟨2026, 1, 17, 10, 0, 0⟩, "[17-Jan-26 10:00:00] b".data),
      (⟨2026, 1, 17, 10, 0, 0⟩, "[17-Jan-26 10:00:00] d".data)] :
      List (DateTime × List Char))
    rfl rfl
  exact ⟨rfl, rfl, h.1, h.2.1, h.2.2 [2026, 1, 17, 10, 0, 0]⟩

/-- C2 counterexample: the claim quantifies over every serialized
transcript line, but a line with trailing whitespace (possible, since the
message text comes verbatim from the device) is compared against the
STRIPPED existing lines, never matches, and is appended again: two appends
leave two copies. -/
theorem c2_counterexample :
    (save_to_history
        (save_to_history [] "[17-Jan-26 22:46:29] #general: [alice] hi ".data)
        "[17-Jan-26 22:46:29] #general: [alice] hi ".data).count
      "[17-Jan-26 22:46:29] #general: [alice] hi ".data = 2 := by
  decide

/-- C2 (amended): for a line equal to its own stripped form and non-empty,
appended to a file none of whose lines strips to it, a second identical
append is a no-op and the file holds exactly one copy. -/
theorem c2_save_to_history_idempotent (f : List (List Char)) (L : List Char)
    (hL : pyStrip L = L) (hne : L ≠ [])
    (hf : ∀ l ∈ f, pyStrip l ≠ L) :
    save_to_history (save_to_history f L) L = save_to_history f L ∧
    (save_to_history f L).count L = 1 := by
  have h1 : L ∉ existingStripped f := by
    intro hmem
    rw [existingStripped, List.mem_filter, List.mem_map] at hmem
    obtain ⟨⟨l, hl, hstrip⟩, _⟩ := hmem
    exact hf l hl hstrip
  have hsave : save_to_history f L = f ++ [L] := by
    simp [save_to_history, save_to_history_full, h1]
  have hLe : L.isEmpty = false := by
    cases L with
    | nil => exact absurd rfl hne
    | cons c cs => rfl
  have h2 : L ∈ existingStripped (f ++ [L]) := by
    rw [existingStripped, List.map_append, List.filter_append]
    apply List.mem_append_right
    simp [hL, hLe]
  refine ⟨?_, ?_⟩
  · rw [hsave]
    simp [save_to_history, save_to_history_full, h2]
  · rw [hsave, List.count_append]
    have hz : f.count L = 0 := by
      rw [List.count_eq_zero]
      intro hmem
      exact hf L hmem hL
    rw [hz]
    simp

/-- C2 witness: the amended idempotence at a concrete whitespace-clean
transcript line over the empty file. -/
theorem c2_witness :
    save_to_history (save_to_history [] "[17-Jan-26 22:46:29] #general: [alice] hi".data)
        "[17-Jan-26 22:46:29] #general: [alice] hi".data =
      save_to_history [] "[17-Jan-26 22:46:29] #general: [alice] hi".data ∧
    (save_to_history [] "[17-Jan-26 22:46:29] #general: [alice] hi".data).count
      "[17-Jan-26 22:46:29] #general: [alice] hi".data = 1 :=
  c2_save_to_history_idempotent [] "[17-Jan-26 22:46:29] #general: [alice] hi".data
    (by decide) (by decide) (by intro l hl; exact absurd hl (List.not_mem_nil l))

/-- C9 counterexample: a call on which a write occurs (the empty file gains
the line), yet the function's value is `none` — Python `None`, not the
boolean `True` the claim requires. -/
theorem c9_counterexample :
    (save_to_history_full [] "[17-Jan-26 22:46:29] #general: [bob] hello".data).2 = none ∧
    (save_to_history_full [] "[17-Jan-26 22:46:29] #general: [bob] hello".data).1 =
      ["[17-Jan-26 22:46:29] #general: [bob] hello".data] :=
  ⟨rfl, rfl⟩

/-- C9 (amended): `save_to_history` has no return statement, so it always
returns `None`; the write itself occurs exactly when the line is absent
from the stripped existing lines, in which case the line is appended. -/
theorem c9_save_returns_none (f : List (List Char)) (L : List Char) :
    (save_to_history_full f L).2 = none ∧
    ((save_to_history_full f L).1 ≠ f ↔ L ∉ existingStripped f) ∧
    (L ∉ existingStripped f → (save_to_history_full f L).1 = f ++ [L]) := by
  refine ⟨rfl, ⟨?_, ?_⟩, ?_⟩
  · intro hne hmem
    exact hne (by simp [save_to_history_full, hmem])
  · intro hnm
    simp only [save_to_history_full, if_neg hnm]
    intro he
    have hlen := congrArg List.length he
    simp at hlen
  · intro hnm
    simp [save_to_history_full, hnm]

/-- C9 witness: the amended statement applied to the empty file and a
concrete line (the no-write-indicator value and the append both
realized). -/
theorem c9_witness :
    (save_to_history_full [] "[17-Jan-26 22:46:29] #d: [v] m".data).2 = none ∧
    (save_to_history_full [] "[17-Jan-26 22:46:29] #d: [v] m".data).1 =
      [] ++ ["[17-Jan-26 22:46:29] #d: [v] m".data] :=
  ⟨(c9_save_returns_none [] "[17-Jan-26 22:46:29] #d: [v] m".data).1,
   (c9_save_returns_none [] "[17-Jan-26 22:46:29] #d: [v] m".data).2.2 (by decide)⟩

/-- C4 counterexample: the scenario event is processed, but the CHAN branch
adds only the bare channel name to `recent_channels` (line 215); the
`#`-prefixed variant the claim requires is never added there (only
`load_all_history` adds both spellings during replay). -/
theorem c4_counterexample :
    ('#' :: "general".data) ∉
      (process_event_message [⟨"general".data⟩] noContacts ⟨2026, 1, 17, 22, 46, 29⟩
        (.msgEv ⟨.CHAN, 0, "hello".data, some "alice".data, none⟩) [] []).recentChannels := by
  decide

/-- C4 (amended): the scenario event produces the line
`"[<ts>] #general: [alice] hello"` with the wall-clock timestamp in
`DD-Mon-YY HH:MM:SS` format, persists it under scope `general`, and adds
`"general"` and `"alice"` to the recent sets — but NOT `"#general"`, whose
membership is unchanged by the call. -/
theorem c4_inbound_chan_scenario (now : DateTime)
    (lookup : List Char → Option (List Char)) (rc ru : List (List Char)) :
    (process_event_message [⟨"general".data⟩] lookup now
      (.msgEv ⟨.CHAN, 0, "hello".data, some "alice".data, none⟩) rc ru).message =
      some (serializeLine (formatTimestamp now) ('#' :: "general".data)
        "alice".data "hello".data) ∧
    (process_event_message [⟨"general".data⟩] lookup now
      (.msgEv ⟨.CHAN, 0, "hello".data, some "alice".data, none⟩) rc ru).saved =
      some ("general".data, serializeLine (formatTimestamp now) ('#' :: "general".data)
        "alice".data "hello".data) ∧
    (process_event_message [⟨"general".data⟩] lookup now
      (.msgEv ⟨.CHAN, 0, "hello".data, some "alice".data, none⟩) rc ru).returned = true ∧
    "general".data ∈ (process_event_message [⟨"general".data⟩] lookup now
      (.msgEv ⟨.CHAN, 0, "hello".data, some "alice".data, none⟩) rc ru).recentChannels ∧
    "alice".data ∈ (process_event_message [⟨"general".data⟩] lookup now
      (.msgEv ⟨.CHAN, 0, "hello".data, some "alice".data, none⟩) rc ru).recentUsers ∧
    (('#' :: "general".data) ∈ (process_event_message [⟨"general".data⟩] lookup now
      (.msgEv ⟨.CHAN, 0, "hello".data, some "alice".data, none⟩) rc ru).recentChannels ↔
      ('#' :: "general".data) ∈ rc) := by
  refine ⟨rfl, rfl, rfl, ?_, ?_, ?_⟩
  · exact mem_setAdd_self rc "general".data
  · exact mem_setAdd_self ru "alice".data
  · show ('#' :: "general".data) ∈ setAdd rc "general".data ↔ _
    rw [mem_setAdd_iff]
    simp

/-- C6 counterexample: the candidate prefix `"a !"` contains characters
outside the alnum/`@._-` set (a space and `!`), so by the claim the sender
must remain `"Unknown"` and the text stay unsplit; the code instead checks
`any()` rather than `all()`, accepts `"a !"` as the sender, splits the
text, and records `"a !"` as a recent user. -/
theorem c6_counterexample :
    "a !".data ∈
      (process_event_message [] noContacts ⟨2026, 1, 17, 22, 46, 29⟩
        (.msgEv ⟨.CHAN, 0, "a !: hi".data, none, none⟩) [] []).recentUsers ∧
    (process_event_message [] noContacts ⟨2026, 1, 17, 22, 46, 29⟩
        (.msgEv ⟨.CHAN, 0, "a !: hi".data, none, none⟩) [] []).message =
      some "[17-Jan-26 22:46:29] #ch0: [a !] hi".data := by
  decide

/-- Reduction of the CHAN branch when no sender is otherwise known and the
text-prefix heuristic accepts the candidate. -/
theorem chanUnknownAccepted (lookup : List Char → Option (List Char)) (now : DateTime)
    (idx : Nat) (text cand rest : List Char) (rc ru : List (List Char))
    (hsplit : splitColonSpace text = some (cand, rest))
    (hc : cand.length ≤ 30 ∧ cand.any isNameChar = true) :
    process_event_message [] lookup now (.msgEv ⟨.CHAN, idx, text, none, none⟩) rc ru =
      ⟨true,
       some (serializeLine (formatTimestamp now) ('#' :: 'c' :: 'h' :: Nat.toDigits 10 idx) cand rest),
       some ('c' :: 'h' :: Nat.toDigits 10 idx,
         serializeLine (formatTimestamp now) ('#' :: 'c' :: 'h' :: Nat.toDigits 10 idx) cand rest),
       setAdd rc ('c' :: 'h' :: Nat.toDigits 10 idx),
       setAdd ru cand⟩ := by
  simp only [process_event_message, hsplit]
  rw [if_pos hc]
  rfl

/-- Reduction of the CHAN branch when no sender is otherwise known and the
text-prefix heuristic rejects the candidate. -/
theorem chanUnknownRejected (lookup : List Char → Option (List Char)) (now : DateTime)
    (idx : Nat) (text cand rest : List Char) (rc ru : List (List Char))
    (hsplit : splitColonSpace text = some (cand, rest))
    (hc : ¬(cand.length ≤ 30 ∧ cand.any isNameChar = true)) :
    process_event_message [] lookup now (.msgEv ⟨.CHAN, idx, text, none, none⟩) rc ru =
      ⟨true,
       some (serializeLine (formatTimestamp now) ('#' :: 'c' :: 'h' :: Nat.toDigits 10 idx)
         "Unknown".data text),
       some ('c' :: 'h' :: Nat.toDigits 10 idx,
         serializeLine (formatTimestamp now) ('#' :: 'c' :: 'h' :: Nat.toDigits 10 idx)
           "Unknown".data text),
       setAdd rc ('c' :: 'h' :: Nat.toDigits 10 idx),
       ru⟩ := by
  simp only [process_event_message, hsplit]
  rw [if_neg hc]
  rfl

/-- Reduction of the CHAN branch when the event carries a non-empty sender
name (other than the literal `"Unknown"`): the heuristic is skipped and the
text stays unsplit. -/
theorem chanNamed (lookup : List Char → Option (List Char)) (now : DateTime)
    (idx : Nat) (text nm : List Char) (rc ru : List (List Char))
    (hnm : nm ≠ []) (hnu : nm ≠ "Unknown".data) :
    process_event_message [] lookup now (.msgEv ⟨.CHAN, idx, text, some nm, none⟩) rc ru =
      ⟨true,
       some (serializeLine (formatTimestamp now) ('#' :: 'c' :: 'h' :: Nat.toDigits 10 idx) nm text),
       some ('c' :: 'h' :: Nat.toDigits 10 idx,
         serializeLine (formatTimestamp now) ('#' :: 'c' :: 'h' :: Nat.toDigits 10 idx) nm text),
       setAdd rc ('c' :: 'h' :: Nat.toDigits 10 idx),
       setAdd ru nm⟩ := by
  cases nm with
  | nil => exact absurd rfl hnm
  | cons c tl =>
    simp only [process_event_message]
    have hcond : ((resolveSender lookup (some (c :: tl)) none).1 = "Unknown".data) =
        ((c :: tl : List Char) = "Unknown".data) := rfl
    cases hs : splitColonSpace text with
    | none => rfl
    | some p =>
      simp only [hcond]
      rw [if_neg hnu]
      rfl

/-- C6 (amended): the text-prefix heuristic fires only when the resolved
sender is `"Unknown"`; the candidate before the first `": "` is accepted
exactly when it is at most 30 characters long and has AT LEAST ONE
character in the alnum/`@._-` set (`any()`, not `all()` — the amendment the
counterexample forces); rejected candidates leave the sender `"Unknown"`,
the text unsplit, and the recent-user set untouched, and a known sender
name suppresses the heuristic entirely. -/
theorem c6_sender_heuristic (lookup : List Char → Option (List Char))
    (now : DateTime) (idx : Nat) (text cand rest nm : List Char)
    (rc ru : List (List Char))
    (hsplit : splitColonSpace text = some (cand, rest))
    (hnm : nm ≠ []) (hnu : nm ≠ "Unknown".data) :
    ((process_event_message [] lookup now (.msgEv ⟨.CHAN, idx, text, none, none⟩) rc ru).message =
      some (serializeLine (formatTimestamp now) ('#' :: 'c' :: 'h' :: Nat.toDigits 10 idx)
        (if cand.length ≤ 30 ∧ cand.any isNameChar then cand else "Unknown".data)
        (if cand.length ≤ 30 ∧ cand.any isNameChar then rest else text))) ∧
    ((cand.length ≤ 30 ∧ cand.any isNameChar) →
      cand ∈ (process_event_message [] lookup now
        (.msgEv ⟨.CHAN, idx, text, none, none⟩) rc ru).recentUsers) ∧
    (¬(cand.length ≤ 30 ∧ cand.any isNameChar) →
      (process_event_message [] lookup now
        (.msgEv ⟨.CHAN, idx, text, none, none⟩) rc ru).recentUsers = ru) ∧
    ((process_event_message [] lookup now (.msgEv ⟨.CHAN, idx, text, some nm, none⟩) rc ru).message =
      some (serializeLine (formatTimestamp now) ('#' :: 'c' :: 'h' :: Nat.toDigits 10 idx)
        nm text)) := by
  refine ⟨?_, ?_, ?_, ?_⟩
  · by_cases hc : cand.length ≤ 30 ∧ cand.any isNameChar = true
    · rw [chanUnknownAccepted lookup now idx text cand rest rc ru hsplit hc,
        if_pos hc, if_pos hc]
    · rw [chanUnknownRejected lookup now idx text cand rest rc ru hsplit hc,
        if_neg hc, if_neg hc]
  · intro hc
    rw [chanUnknownAccepted lookup now idx text cand rest rc ru hsplit hc]
    exact mem_setAdd_self ru cand
  · intro hc
    rw [chanUnknownRejected lookup now idx text cand rest rc ru hsplit hc]
  · rw [chanNamed lookup now idx text nm rc ru hnm hnu]

/-- C6 witness: the amended heuristic at the concrete accepted candidate
`"a !"` (one alphanumeric character suffices) and at a known sender name
`"bob"` (heuristic suppressed, text unsplit). -/
theorem c6_witness :
    ((process_event_message [] noContacts ⟨2026, 1, 17, 22, 46, 29⟩
      (.msgEv ⟨.CHAN, 0, "a !: hi".data, none, none⟩) [] []).message =
      some (serializeLine (formatTimestamp ⟨2026, 1, 17, 22, 46, 29⟩)
        ('#' :: 'c' :: 'h' :: Nat.toDigits 10 0)
        (if "a !".data.length ≤ 30 ∧ "a !".data.any isNameChar then "a !".data
         else "Unknown".data)
        (if "a !".data.length ≤ 30 ∧ "a !".data.any isNameChar then "hi".data
         else "a !: hi".data))) ∧
    "a !".data ∈ (process_event_message [] noContacts ⟨2026, 1, 17, 22, 46, 29⟩
      (.msgEv ⟨.CHAN, 0, "a !: hi".data, none, none⟩) [] []).recentUsers ∧
    ((process_event_message [] noContacts ⟨2026, 1, 17, 22, 46, 29⟩
      (.msgEv ⟨.CHAN, 0, "a !: hi".data, some "bob".data, none⟩) [] []).message =
      some (serializeLine (formatTimestamp ⟨2026, 1, 17, 22, 46, 29⟩)
        ('#' :: 'c' :: 'h' :: Nat.toDigits 10 0) "bob".data "a !: hi".data)) :=
  have h := c6_sender_heuristic noContacts ⟨2026, 1, 17, 22, 46, 29⟩ 0
    "a !: hi".data "a !".data "hi".data "bob".data [] [] rfl (by decide) (by decide)
  ⟨h.1, h.2.1 (by decide), h.2.2.2⟩

/-- C7: every direct (PRIV) inbound message is persisted under the scope
`"private"` — which does not start with `#`, no `#`-normalization being
applied to it — and its serialized line is the channel template with
`private` in the channel-name slot (so the `#` in the line comes from the
fixed template, not from the scope), the sender being resolved by the
standard chain; `recent_channels` is untouched. -/
theorem c7_private_scope (channels : List ChannelInfo)
    (lookup : List Char → Option (List Char)) (now : DateTime) (idx : Nat)
    (text : List Char) (name pubkey : Option (List Char)) (rc ru : List (List Char)) :
    (process_event_message channels lookup now
      (.msgEv ⟨.PRIV, idx, text, name, pubkey⟩) rc ru).saved =
      some ("private".data,
        serializeLine (formatTimestamp now) ('#' :: "private".data)
          (resolveSender lookup name pubkey).1 text) ∧
    ("private".data).head? ≠ some '#' ∧
    (process_event_message channels lookup now
      (.msgEv ⟨.PRIV, idx, text, name, pubkey⟩) rc ru).recentChannels = rc ∧
    (process_event_message channels lookup now
      (.msgEv ⟨.PRIV, idx, text, name, pubkey⟩) rc ru).returned = true :=
  ⟨rfl, by decide, rfl, rfl⟩

/-- C3: for a resolving target, the transcript line is the FIRST history
write, present identically no matter which network outcome follows (it is
issued at line 475, before `send_chan_msg` at line 485); and when the send
command succeeds but the ACK wait times out, the status is `"⚠ TIMEOUT"` —
not `"✗ ERROR"` — and that line is the only history write: nothing about
the stored line is mutated or re-persisted on the timeout path. -/
theorem c3_outbound_persist_and_timeout (channels : List ChannelInfo)
    (selfName : Option (List Char)) (now : DateTime)
    (channel_input text : List Char) (idx : Nat) (outcome : NetOutcome)
    (h : resolveChannel channels channel_input = some idx) :
    (send_message channels selfName now channel_input text outcome).historyWrites.head? =
      some ((if channel_input.head? = some '#' then channel_input else '#' :: channel_input),
        serializeLine (formatTimestamp now)
          (if channel_input.head? = some '#' then channel_input else '#' :: channel_input)
          (selfName.getD "Me".data) text) ∧
    (send_message channels selfName now channel_input text outcome).returned = true ∧
    (outcome = NetOutcome.ackTimeout →
      (send_message channels selfName now channel_input text outcome).statusMsg =
        some "⚠ TIMEOUT".data ∧
      (send_message channels selfName now channel_input text outcome).statusMsg ≠
        some "✗ ERROR".data ∧
      (send_message channels selfName now channel_input text outcome).historyWrites =
        [((if channel_input.head? = some '#' then channel_input else '#' :: channel_input),
          serializeLine (formatTimestamp now)
            (if channel_input.head? = some '#' then channel_input else '#' :: channel_input)
            (selfName.getD "Me".data) text)]) := by
  have hdisp2 : (if channel_input.head? = some '#' then channel_input
      else '#' :: channel_input).head? = some '#' := by
    by_cases hh : channel_input.head? = some '#'
    · rw [if_pos hh]
      exact hh
    · rw [if_neg hh]
      rfl
  simp only [send_message, h]
  rw [if_pos hdisp2]
  cases outcome with
  | cmdError => exact ⟨rfl, rfl, fun hto => absurd hto (by decide)⟩
  | ackTimeout =>
    exact ⟨rfl, rfl, fun _ =>
      ⟨rfl, (by decide : some "⚠ TIMEOUT".data ≠ some "✗ ERROR".data), rfl⟩⟩
  | ackReceived => exact ⟨rfl, rfl, fun hto => absurd hto (by decide)⟩
  | exn => exact ⟨rfl, rfl, fun hto => absurd hto (by decide)⟩

/-- C3 witness: a timing-out send to the loaded channel `general`; the line
is persisted (as the sole write) and the status is the timeout marker. -/
theorem c3_witness :
    (send_message [⟨"general".data⟩] none ⟨2026, 1, 17, 22, 46, 29⟩
      "general".data "hi".data NetOutcome.ackTimeout).historyWrites.head? =
      some ('#' :: "general".data,
        serializeLine (formatTimestamp ⟨2026, 1, 17, 22, 46, 29⟩) ('#' :: "general".data)
          "Me".data "hi".data) ∧
    (send_message [⟨"general".data⟩] none ⟨2026, 1, 17, 22, 46, 29⟩
      "general".data "hi".data NetOutcome.ackTimeout).statusMsg = some "⚠ TIMEOUT".data ∧
    (send_message [⟨"general".data⟩] none ⟨2026, 1, 17, 22, 46, 29⟩
      "general".data "hi".data NetOutcome.ackTimeout).statusMsg ≠ some "✗ ERROR".data ∧
    (send_message [⟨"general".data⟩] none ⟨2026, 1, 17, 22, 46, 29⟩
      "general".data "hi".data NetOutcome.ackTimeout).historyWrites =
      [('#' :: "general".data,
        serializeLine (formatTimestamp ⟨2026, 1, 17, 22, 46, 29⟩) ('#' :: "general".data)
          "Me".data "hi".data)] :=
  have h := c3_outbound_persist_and_timeout [⟨"general".data⟩] none
    ⟨2026, 1, 17, 22, 46, 29⟩ "general".data "hi".data 0 NetOutcome.ackTimeout rfl
  ⟨h.1, (h.2.2 rfl).1, (h.2.2 rfl).2.1, (h.2.2 rfl).2.2⟩

/-- C8: when the target matches no table entry (with or without `#`) and is
neither `ch<N>` nor a bare digit string, `send_message` reports the
not-found error, returns `False`, and performs nothing else: no history
write, no network send, no recent-channel addition, no status. -/
theorem c8_unresolved_target (channels : List ChannelInfo)
    (selfName : Option (List Char)) (now : DateTime)
    (channel_input text : List Char) (outcome : NetOutcome)
    (h : resolveChannel channels channel_input = none) :
    send_message channels selfName now channel_input text outcome =
      ⟨false, true, [], none, none, []⟩ := by
  unfold send_message
  rw [h]

/-- C8 witness: sending to `nope` with only `general` loaded: the not-found
result with no side effects. -/
theorem c8_witness :
    send_message [⟨"general".data⟩] none ⟨2026, 1, 17, 22, 46, 29⟩
      "nope".data "hi".data NetOutcome.ackReceived =
      ⟨false, true, [], none, none, []⟩ :=
  c8_unresolved_target [⟨"general".data⟩] none ⟨2026, 1, 17, 22, 46, 29⟩
    "nope".data "hi".data NetOutcome.ackReceived rfl

/-- C10: `ch<N>` and bare-digit targets always resolve, with no check of
`N` against the loaded channel table — when additionally no channel name
matches, the raw index `N` itself is what `send_chan_msg` receives and the
not-found path is not taken — and a resolution failure is possible only for
targets of neither numeric form. -/
theorem c10_numeric_targets_skip_validation :
    (∀ (channels : List ChannelInfo) (N : List Char), isDigitsStr N = true →
      resolveChannel channels ('c' :: 'h' :: N) ≠ none) ∧
    (∀ (channels : List ChannelInfo) (input : List Char), isDigitsStr input = true →
      resolveChannel channels input ≠ none) ∧
    (∀ (channels : List ChannelInfo) (N : List Char)
      (selfName : Option (List Char)) (now : DateTime) (text : List Char)
      (outcome : NetOutcome),
      channels.findIdx? (chanMatches ('c' :: 'h' :: N)) = none → isDigitsStr N = true →
      resolveChannel channels ('c' :: 'h' :: N) = some (natOfDigits N) ∧
      (send_message channels selfName now ('c' :: 'h' :: N) text outcome).sentIdx =
        some (natOfDigits N) ∧
      (send_message channels selfName now ('c' :: 'h' :: N) text outcome).errorShown = false) ∧
    (∀ (channels : List ChannelInfo) (input : List Char),
      resolveChannel channels input = none →
      (input.take 2 == ['c', 'h'] && isDigitsStr (input.drop 2)) = false ∧
      isDigitsStr input = false) := by
  have hres : ∀ (channels : List ChannelInfo) (N : List Char),
      channels.findIdx? (chanMatches ('c' :: 'h' :: N)) = none → isDigitsStr N = true →
      resolveChannel channels ('c' :: 'h' :: N) = some (natOfDigits N) := by
    intro channels N hfi hN
    unfold resolveChannel
    rw [hfi]
    have hcond : (('c' :: 'h' :: N).take 2 == ['c', 'h'] &&
        isDigitsStr (('c' :: 'h' :: N).drop 2)) = true := by
      show (['c', 'h'] == ['c', 'h'] && isDigitsStr N) = true
      rw [hN]
      rfl
    rw [if_pos hcond]
    rfl
  refine ⟨?_, ?_, ?_, ?_⟩
  · intro channels N hN
    unfold resolveChannel
    cases hfi : channels.findIdx? (chanMatches ('c' :: 'h' :: N)) with
    | some i => exact fun hcon => Option.noConfusion hcon
    | none =>
      have hcond : (('c' :: 'h' :: N).take 2 == ['c', 'h'] &&
          isDigitsStr (('c' :: 'h' :: N).drop 2)) = true := by
        show (['c', 'h'] == ['c', 'h'] && isDigitsStr N) = true
        rw [hN]
        rfl
      rw [if_pos hcond]
      exact fun hcon => Option.noConfusion hcon
  · intro channels input hN
    unfold resolveChannel
    cases hfi : channels.findIdx? (chanMatches input) with
    | some i => exact fun hcon => Option.noConfusion hcon
    | none =>
      by_cases hch : (input.take 2 == ['c', 'h'] && isDigitsStr (input.drop 2)) = true
      · rw [if_pos hch]
        exact fun hcon => Option.noConfusion hcon
      · rw [if_neg hch, if_pos hN]
        exact fun hcon => Option.noConfusion hcon
  · intro channels N selfName now text outcome hfi hN
    refine ⟨hres channels N hfi hN, ?_, ?_⟩
    · unfold send_message
      rw [hres channels N hfi hN]
      cases outcome <;> rfl
    · unfold send_message
      rw [hres channels N hfi hN]
      cases outcome <;> rfl
  · intro channels input hnone
    unfold resolveChannel at hnone
    cases hfi : channels.findIdx? (chanMatches input) with
    | some i =>
      rw [hfi] at hnone
      exact absurd hnone (fun hcon => Option.noConfusion hcon)
    | none =>
      rw [hfi] at hnone
      by_cases hch : (input.take 2 == ['c', 'h'] && isDigitsStr (input.drop 2)) = true
      · rw [if_pos hch] at hnone
        exact absurd hnone (fun hcon => Option.noConfusion hcon)
      · by_cases hd : isDigitsStr input = true
        · rw [if_neg hch, if_pos hd] at hnone
          exact absurd hnone (fun hcon => Option.noConfusion hcon)
        · exact ⟨Bool.eq_false_iff.mpr hch, Bool.eq_false_iff.mpr hd⟩

/-- C10 witness: `ch99` with a one-channel table (`general`, so no channel
of index 99 exists and no name matches): resolution yields the raw index
99, the send is issued with it, and no not-found error is shown. -/
theorem c10_witness :
    resolveChannel [⟨"general".data⟩] ('c' :: 'h' :: "99".data) = some (natOfDigits "99".data) ∧
    (send_message [⟨"general".data⟩] none ⟨2026, 1, 17, 22, 46, 29⟩
      ('c' :: 'h' :: "99".data) "hi".data NetOutcome.ackTimeout).sentIdx =
      some (natOfDigits "99".data) ∧
    (send_message [⟨"general".data⟩] none ⟨2026, 1, 17, 22, 46, 29⟩
      ('c' :: 'h' :: "99".data) "hi".data NetOutcome.ackTimeout).errorShown = false :=
  c10_numeric_targets_skip_validation.2.2.1 [⟨"general".data⟩] "99".data none
    ⟨2026, 1, 17, 22, 46, 29⟩ "hi".data NetOutcome.ackTimeout rfl rfl

/-- C5: for every bracketed timestamp that reaches the manual legacy parse
(the six strptime formats and the time-only pattern all fail, and the
`'-' in ts and len(ts) >= 14` guard holds) and has the hyphen-separated
`DD-Mon-YY` shape with a two-digit year, a successful parse maps a year
value below 50 to `2000 + YY` and one of 50 or more to `1900 + YY` — in
particular `26` gives 2026 and `60` gives 1960 (the witness exhibits
both). -/
theorem c5_manual_legacy_year (today : Date)
    (line ts dateS timeS dayS monS mnum : List Char) (d1 d2 : Char) (dt : DateTime)
    (hbr : extractBracket line = some ts)
    (hfmt : tryFixedFormats ts = none)
    (htime : timeOnlyMatch ts = none)
    (hdash : '-' ∈ ts) (hlen : 14 ≤ ts.length)
    (hsplit : pySplitWS ts = [dateS, timeS])
    (hdashd : '-' ∈ dateS)
    (hcomp : splitOnChar '-' dateS = [dayS, monS, [d1, d2]])
    (hmon : monthMap (pyCapitalize monS) = some mnum)
    (hd1 : d1.isDigit = true) (hd2 : d2.isDigit = true)
    (hparse : parse_message_timestamp today line = .ok (some dt)) :
    dt.year = if natOfDigits [d1, d2] < 50 then 2000 + natOfDigits [d1, d2]
              else 1900 + natOfDigits [d1, d2] := by
  have hpm : parse_message_timestamp today line = .ok (manualLegacy ts) := by
    simp only [parse_message_timestamp, hbr, hfmt, htime]
    rw [if_pos ⟨hdash, hlen⟩]
  rw [hpm] at hparse
  have hman : manualLegacy ts = some dt := Except.ok.inj hparse
  have hint : pyIntLiteral [d1, d2] = some ((natOfDigits [d1, d2] : Nat) : Int) :=
    pyIntLiteral_twoDigits d1 d2 hd1 hd2
  simp only [manualLegacy, hsplit] at hman
  rw [if_pos hdashd, hcomp] at hman
  simp only [hmon, hint] at hman
  have h20 : natOfDigits ['2', '0', d1, d2] = 2000 + natOfDigits [d1, d2] := by
    rw [natOfDigits_cons2]
    have e1 : dval '2' = 2 := by decide
    have e2 : dval '0' = 0 := by decide
    rw [e1, e2]
  have h19 : natOfDigits ['1', '9', d1, d2] = 1900 + natOfDigits [d1, d2] := by
    rw [natOfDigits_cons2]
    have e1 : dval '1' = 1 := by decide
    have e2 : dval '9' = 9 := by decide
    rw [e1, e2]
  by_cases h50 : natOfDigits [d1, d2] < 50
  · have h50i : ((natOfDigits [d1, d2] : Nat) : Int) < 50 := by exact_mod_cast h50
    rw [if_pos h50i] at hman
    simp only [List.cons_append, List.nil_append] at hman
    obtain ⟨r4, hy⟩ := tryFormat_fmt5_year _ dt hman
    have hyv := spY4_value '2' '0' d1 d2 _ dt.year r4 (by decide) (by decide) hd1 hd2 hy
    rw [if_pos h50, hyv, h20]
  · have h50i : ¬((natOfDigits [d1, d2] : Nat) : Int) < 50 := by exact_mod_cast h50
    rw [if_neg h50i] at hman
    simp only [List.cons_append, List.nil_append] at hman
    obtain ⟨r4, hy⟩ := tryFormat_fmt5_year _ dt hman
    have hyv := spY4_value '1' '9' d1 d2 _ dt.year r4 (by decide) (by decide) hd1 hd2 hy
    rw [if_neg h50, hyv, h19]

/-- C5 witness: two concrete lines that reach the manual parse (a leading
space inside the bracket defeats every strptime format, whose regexes are
anchored at the start): year `60` parses to 1960 and year `26` to 2026. -/
theorem c5_witness :
    parse_message_timestamp ⟨2026, 1, 17⟩ "[ 17-Jan-60 22:46:29] x".data =
      .ok (some ⟨1960, 1, 17, 22, 46, 29⟩) ∧
    (DateTime.year ⟨1960, 1, 17, 22, 46, 29⟩ =
      if natOfDigits ['6', '0'] < 50 then 2000 + natOfDigits ['6', '0']
      else 1900 + natOfDigits ['6', '0']) ∧
    parse_message_timestamp ⟨2026, 1, 17⟩ "[ 17-Jan-26 22:46:29] x".data =
      .ok (some ⟨2026, 1, 17, 22, 46, 29⟩) ∧
    (DateTime.year ⟨2026, 1, 17, 22, 46, 29⟩ =
      if natOfDigits ['2', '6'] < 50 then 2000 + natOfDigits ['2', '6']
      else 1900 + natOfDigits ['2', '6']) :=
  ⟨rfl,
   c5_manual_legacy_year ⟨2026, 1, 17⟩ "[ 17-Jan-60 22:46:29] x".data
     " 17-Jan-60 22:46:29".data "17-Jan-60".data "22:46:29".data
     "17".data "Jan".data "01".data '6' '0' ⟨1960, 1, 17, 22, 46, 29⟩
     rfl rfl rfl (by decide) (by decide) rfl (by decide) rfl rfl
     (by decide) (by decide) rfl,
   rfl,
   c5_manual_legacy_year ⟨2026, 1, 17⟩ "[ 17-Jan-26 22:46:29] x".data
     " 17-Jan-26 22:46:29".data "17-Jan-26".data "22:46:29".data
     "17".data "Jan".data "01".data '2' '6' ⟨2026, 1, 17, 22, 46, 29⟩
     rfl rfl rfl (by decide) (by decide) rfl (by decide) rfl rfl
     (by decide) (by decide) rfl⟩

end MeshChat
